import Mathlib

/-!
Shallow embedding of `src/src-tauri/src/main.rs` (FirstDataUnion/FIDU).

The source is a Tauri desktop shell with a single command,
`start_python_server`, plus a `main` whose setup hook invokes that command
once and also registers it as an externally invokable handler.
`start_python_server` spawns a helper thread; the thread reads the
process's ambient current directory, takes its parent (`expect` panics
when there is none), and spawns `.venv/bin/python src/fidu_core/main.py`
with that parent as the child's working directory (`expect` panics when
the spawn fails).  The command itself returns unit immediately.

Paths are modelled as lists of components below the filesystem root, so
`[]` is `/` and `["home", "user"]` is `/home/user`.  The filesystem is
modelled by the list of absolute paths at which an executable file exists.
-/

namespace FIDU

abbrev Path := List String

/-- Rust `Path::parent`: `None` at the filesystem root, otherwise the path
with its last component removed. -/
def parentDir : Path → Option Path
  | [] => none
  | ps => some ps.dropLast

/-- The project-root resolution inside `start_python_server`:
`env::current_dir().parent()`.  `none` models the `expect` panic branch. -/
def resolveProjectRoot (cwd : Path) : Option Path :=
  parentDir cwd

/-- The fixed program passed to `Command::new`: the relative path
`.venv/bin/python`, as components. -/
def pythonProgram : List String := [".venv", "bin", "python"]

/-- The fixed argument vector: the single `.arg("src/fidu_core/main.py")`. -/
def pythonArgs : List String := ["src/fidu_core/main.py"]

/-- What is handed to the OS on spawn: program, arguments, and the child's
working directory (`.current_dir(project_root)`). -/
structure SpawnSpec where
  program : List String
  args : List String
  cwd : Path
deriving Repr, DecidableEq

/-- The `Command` built in the helper thread, as a function of the resolved
project root. -/
def pythonSpawnSpec (projectRoot : Path) : SpawnSpec :=
  { program := pythonProgram, args := pythonArgs, cwd := projectRoot }

/-- An OS child process created by a successful spawn. -/
structure Child where
  pid : Nat
  spec : SpawnSpec
  alive : Bool
deriving Repr, DecidableEq

/-- The one kind of background work the source creates: the closure passed
to `std::thread::spawn` inside `start_python_server`. -/
inductive BgTask
  | launchPython
deriving Repr, DecidableEq

/-- Outcome of running the helper thread: either a child was spawned, or
one of the thread's `expect` calls panicked (panics in a spawned thread do
not propagate to the rest of the process). -/
inductive TaskResult
  | spawned (pid : Nat)
  | panicked (msg : String)
deriving Repr, DecidableEq

/-- Lifecycle outcomes the spec makes observable to the UI.  The source
has no status or event API, so no code path ever emits one; the log exists
so that absence is statable. -/
inductive SupEvent
  | ready
  | failed (reason : String)
deriving Repr, DecidableEq

/-- The shell-process state the claims are about: the ambient current
directory, the OS children spawned so far, helper threads not yet run,
their recorded outcomes, the (never written) observable event log, whether
the shell is still running, and a fresh-pid counter. -/
structure ShellState where
  cwd : Path
  children : List Child
  pendingTasks : List BgTask
  taskResults : List TaskResult
  eventLog : List SupEvent
  shellRunning : Bool
  nextPid : Nat
deriving Repr, DecidableEq

/-- A freshly started shell, launched with ambient current directory
`cwd`. -/
def initState (cwd : Path) : ShellState :=
  { cwd := cwd, children := [], pendingTasks := [], taskResults := [],
    eventLog := [], shellRunning := true, nextPid := 0 }

/-- On Unix, `Command::spawn` with `.current_dir` set resolves a relative
program after the chdir, so the executable looked up is
`spec.cwd ++ spec.program`. -/
def resolveProgram (spec : SpawnSpec) : Path :=
  spec.cwd ++ spec.program

/-- Whether the OS can spawn `spec` given the executables present on the
filesystem. -/
def spawnOk (exes : List Path) (spec : SpawnSpec) : Bool :=
  (resolveProgram spec) ∈ exes

/-- The body of the helper thread in `start_python_server`: resolve the
project root from the ambient current directory (panic if it has no
parent), then spawn the fixed python command there (panic if the OS
refuses).  A panic ends only this thread: it is recorded in `taskResults`
and touches nothing else. -/
def runLaunchTask (exes : List Path) (s : ShellState) : ShellState :=
  match resolveProjectRoot s.cwd with
  | none =>
      { s with taskResults := s.taskResults ++ [.panicked "Failed to get project root"] }
  | some root =>
      let spec := pythonSpawnSpec root
      if spawnOk exes spec then
        { s with
            children := s.children ++ [{ pid := s.nextPid, spec := spec, alive := true }],
            taskResults := s.taskResults ++ [.spawned s.nextPid],
            nextPid := s.nextPid + 1 }
      else
        { s with taskResults := s.taskResults ++ [.panicked "Failed to start Python server"] }

/-- The `start_python_server` command itself, as seen by its caller: it
enqueues the helper thread and returns `()` at once.  Nothing else of the
process state is read or written on the calling thread. -/
def start_python_server (s : ShellState) : ShellState × Unit :=
  ({ s with pendingTasks := s.pendingTasks ++ [BgTask.launchPython] }, ())

/-- The operations that can act on the shell state during a session:
the setup hook or the UI invoking the registered `start_python_server`
command, the scheduler running the oldest pending helper thread, a child
exiting on its own with some code, and the shell terminating (the end of
`tauri::Builder::run`, which contains no shutdown handling). -/
inductive Op
  | invokeStart
  | runTask
  | childExits (pid : Nat) (code : Int)
  | shellExit
deriving Repr, DecidableEq

/-- One step of the session.  `childExits` only marks the child dead: the
source has no monitor, so nothing reacts.  `shellExit` only clears
`shellRunning`: the source has no shutdown coordinator, so the children
are untouched. -/
def stepOp (exes : List Path) (s : ShellState) : Op → ShellState
  | .invokeStart => (start_python_server s).1
  | .runTask =>
      match s.pendingTasks with
      | [] => s
      | _ :: ts => runLaunchTask exes { s with pendingTasks := ts }
  | .childExits pid _ =>
      { s with children :=
          s.children.map (fun c => if c.pid = pid then { c with alive := false } else c) }
  | .shellExit => { s with shellRunning := false }

/-- A whole session: the steps applied in order. -/
def runOps (exes : List Path) (s : ShellState) (ops : List Op) : ShellState :=
  ops.foldl (stepOp exes) s

/-- The setup hook in `main`: it invokes `start_python_server` once as the
app starts. -/
def setupHook (s : ShellState) : ShellState :=
  (start_python_server s).1

/-- A child whose launch command is the fixed python program and argument
vector. -/
def fixedCmd (c : Child) : Bool :=
  c.spec.program == pythonProgram && c.spec.args == pythonArgs

/-- The helper thread never writes the observable event log. -/
theorem runLaunchTask_eventLog (exes : List Path) (s : ShellState) :
    (runLaunchTask exes s).eventLog = s.eventLog := by
  unfold runLaunchTask
  cases resolveProjectRoot s.cwd
  · rfl
  · dsimp only
    split <;> rfl

/-- A panic in the helper thread does not stop the shell. -/
theorem runLaunchTask_shellRunning (exes : List Path) (s : ShellState) :
    (runLaunchTask exes s).shellRunning = s.shellRunning := by
  unfold runLaunchTask
  cases resolveProjectRoot s.cwd
  · rfl
  · dsimp only
    split <;> rfl

/-- The helper thread either leaves the children untouched (a panic
branch) or appends exactly the one python child for the resolved root. -/
theorem runLaunchTask_children_cases (exes : List Path) (s : ShellState) :
    (runLaunchTask exes s).children = s.children ∨
      ∃ root, resolveProjectRoot s.cwd = some root ∧
        (runLaunchTask exes s).children =
          s.children ++ [{ pid := s.nextPid, spec := pythonSpawnSpec root, alive := true }] := by
  unfold runLaunchTask
  cases h : resolveProjectRoot s.cwd with
  | none => exact Or.inl rfl
  | some root =>
      dsimp only
      cases hs : spawnOk exes (pythonSpawnSpec root) with
      | false => exact Or.inl (by simp [hs])
      | true => exact Or.inr ⟨root, rfl, by simp [hs]⟩

/-- No step of a session ever emits an observable lifecycle event. -/
theorem stepOp_eventLog (exes : List Path) (s : ShellState) (op : Op) :
    (stepOp exes s op).eventLog = s.eventLog := by
  cases op with
  | invokeStart => rfl
  | runTask =>
      cases hp : s.pendingTasks with
      | nil => simp [stepOp, hp]
      | cons t ts =>
          simp only [stepOp, hp]
          exact runLaunchTask_eventLog exes _
  | childExits pid code => rfl
  | shellExit => rfl

/-- The event log across a whole session is the initial one. -/
theorem runOps_eventLog (exes : List Path) (s : ShellState) (ops : List Op) :
    (runOps exes s ops).eventLog = s.eventLog := by
  induction ops generalizing s with
  | nil => rfl
  | cons op ops ih =>
      simp only [runOps, List.foldl_cons] at *
      rw [ih (stepOp exes s op), stepOp_eventLog]

/-- Every step preserves the property that all children were launched with
the fixed python command. -/
theorem stepOp_fixedCmd (exes : List Path) (s : ShellState) (op : Op)
    (h : s.children.all fixedCmd = true) :
    (stepOp exes s op).children.all fixedCmd = true := by
  cases op with
  | invokeStart => exact h
  | runTask =>
      cases hp : s.pendingTasks with
      | nil => simpa [stepOp, hp] using h
      | cons t ts =>
          simp only [stepOp, hp]
          rcases runLaunchTask_children_cases exes
              { s with pendingTasks := ts } with hc | ⟨root, _, hc⟩
          · rw [hc]; exact h
          · rw [hc]
            simp only [List.all_append, List.all_cons, List.all_nil, Bool.and_eq_true]
            exact ⟨h, by simp [fixedCmd, pythonSpawnSpec], trivial⟩
  | childExits pid code =>
      simp only [stepOp, List.all_eq_true, List.mem_map] at h ⊢
      rintro c ⟨c₀, hc₀, rfl⟩
      have hg := h c₀ hc₀
      split <;> simpa [fixedCmd] using hg
  | shellExit => exact h

/-- Across a whole session, all children carry the fixed python command. -/
theorem runOps_fixedCmd (exes : List Path) (s : ShellState) (ops : List Op)
    (h : s.children.all fixedCmd = true) :
    (runOps exes s ops).children.all fixedCmd = true := by
  induction ops generalizing s with
  | nil => exact h
  | cons op ops ih =>
      simp only [runOps, List.foldl_cons] at *
      exact ih (stepOp exes s op) (stepOp_fixedCmd exes s op h)

/-- Claim C1, refuted on the code: the directory used to resolve the
backend executable is the parent of the process's ambient current working
directory at the time of the call, not anything derived from the shell's
installation location.  Launched from /tmp/x the child runs in /tmp;
launched from /opt/fidu/src-tauri it runs in /opt/fidu; the anchor tracks
the ambient cwd. -/
theorem C1_anchor_follows_ambient_cwd :
    (runOps [["tmp", ".venv", "bin", "python"]] (initState ["tmp", "x"])
        [.invokeStart, .runTask]).children =
      [{ pid := 0, spec := pythonSpawnSpec ["tmp"], alive := true }] ∧
    (runOps [["opt", "fidu", ".venv", "bin", "python"]]
        (initState ["opt", "fidu", "src-tauri"])
        [.invokeStart, .runTask]).children =
      [{ pid := 0, spec := pythonSpawnSpec ["opt", "fidu"], alive := true }] ∧
    (pythonSpawnSpec ["tmp"]).cwd ≠ (pythonSpawnSpec ["opt", "fidu"]).cwd := by
  refine ⟨by decide, by decide, by decide⟩

/-- Claim C2, refuted on the code: when no executable exists at the
resolved path, no child is created (that half of the claim holds), but the
launch operation still returns unit to its caller and the failure surfaces
only as an expect panic recorded in the helper thread — no
ExecutableNotFound or SpawnFailed error value is ever returned and no
Failed event is emitted. -/
theorem C2_spawn_failure_panics_helper :
    (start_python_server (initState ["opt", "fidu", "src-tauri"])).2 = () ∧
    (runOps [] (initState ["opt", "fidu", "src-tauri"])
        [.invokeStart, .runTask]).children = [] ∧
    (runOps [] (initState ["opt", "fidu", "src-tauri"])
        [.invokeStart, .runTask]).taskResults =
      [TaskResult.panicked "Failed to start Python server"] ∧
    (runOps [] (initState ["opt", "fidu", "src-tauri"])
        [.invokeStart, .runTask]).eventLog = [] := by
  refine ⟨rfl, by decide, by decide, by decide⟩

/-- Claim C3, refuted on the code: after the setup hook's launch, one more
invocation of the externally invokable start_python_server command (which
main registers as a handler) spawns a second python process, so two child
processes are concurrently live. -/
theorem C3_second_invocation_spawns_second_child :
    ((runOps [["opt", "fidu", ".venv", "bin", "python"]]
        (setupHook (initState ["opt", "fidu", "src-tauri"]))
        [.runTask, .invokeStart, .runTask]).children.filter
          (fun c => c.alive)).length = 2 := by
  decide

/-- Claim C4, refuted on the code: the launch is fire-and-forget.  Over
every possible session no Ready and no Failed outcome is ever observable
(the event log stays empty), and the launch command itself returns unit
rather than an outcome; the supervisor reaches neither of the two states
the claim requires. -/
theorem C4_no_ready_or_failed_outcome (exes : List Path) (cwd : Path) (ops : List Op) :
    (runOps exes (initState cwd) ops).eventLog = [] ∧
    (start_python_server (initState cwd)).2 = () :=
  ⟨runOps_eventLog exes (initState cwd) ops, rfl⟩

/-- Claim C5, refuted on the code: there is no restart policy.  A child
exit notification changes no pending work, no events and no child count;
concretely, after the setup launch and three crash notifications the
session has emitted no RestartBudgetExhausted (no event at all), queued no
relaunch, and only the single original launch ever happened. -/
theorem C5_crashes_trigger_nothing (exes : List Path) (s : ShellState)
    (pid : Nat) (code : Int) :
    (stepOp exes s (.childExits pid code)).pendingTasks = s.pendingTasks ∧
    (stepOp exes s (.childExits pid code)).eventLog = s.eventLog ∧
    (stepOp exes s (.childExits pid code)).children.length = s.children.length ∧
    (runOps [["opt", "fidu", ".venv", "bin", "python"]]
        (setupHook (initState ["opt", "fidu", "src-tauri"]))
        [.runTask, .childExits 0 1, .childExits 0 1, .childExits 0 1]).eventLog = [] ∧
    (runOps [["opt", "fidu", ".venv", "bin", "python"]]
        (setupHook (initState ["opt", "fidu", "src-tauri"]))
        [.runTask, .childExits 0 1, .childExits 0 1, .childExits 0 1]).pendingTasks = [] ∧
    (runOps [["opt", "fidu", ".venv", "bin", "python"]]
        (setupHook (initState ["opt", "fidu", "src-tauri"]))
        [.runTask, .childExits 0 1, .childExits 0 1, .childExits 0 1]).children.length = 1 := by
  refine ⟨rfl, rfl, by simp [stepOp], by decide, by decide, by decide⟩

/-- Claim C6, refuted on the code: the shell's termination path contains
no shutdown handling.  Shell exit changes only the running flag; after a
successful launch followed by shell exit the child is still alive in the
process table — it is orphaned, and no Stopped(Clean) state exists. -/
theorem C6_shell_exit_orphans_child (exes : List Path) (s : ShellState) :
    stepOp exes s .shellExit = { s with shellRunning := false } ∧
    ((runOps [["opt", "fidu", ".venv", "bin", "python"]]
        (setupHook (initState ["opt", "fidu", "src-tauri"]))
        [.runTask, .shellExit]).children.filter (fun c => c.alive)).length = 1 ∧
    (runOps [["opt", "fidu", ".venv", "bin", "python"]]
        (setupHook (initState ["opt", "fidu", "src-tauri"]))
        [.runTask, .shellExit]).shellRunning = false := by
  refine ⟨rfl, by decide, by decide⟩

/-- Claim C7, confirmed: the launch operation returns unit to its caller
at once, only enqueueing the helper thread, and the helper's whole effect
on process state is at most the creation of the one new child process —
the event log, the running flag, and everything else are untouched, and it
never waits on the child's readiness (no readiness notion exists on its
path). -/
theorem C7_launch_returns_without_waiting (exes : List Path) (s : ShellState) :
    start_python_server s =
      ({ s with pendingTasks := s.pendingTasks ++ [BgTask.launchPython] }, ()) ∧
    ((runLaunchTask exes s).children = s.children ∨
      ∃ root, resolveProjectRoot s.cwd = some root ∧
        (runLaunchTask exes s).children =
          s.children ++ [{ pid := s.nextPid, spec := pythonSpawnSpec root, alive := true }]) ∧
    (runLaunchTask exes s).eventLog = s.eventLog ∧
    (runLaunchTask exes s).shellRunning = s.shellRunning :=
  ⟨rfl, runLaunchTask_children_cases exes s, runLaunchTask_eventLog exes s,
    runLaunchTask_shellRunning exes s⟩

/-- Claim C8, confirmed: every child any session ever creates carries the
fixed program .venv/bin/python and the fixed argument vector
[src/fidu_core/main.py]; the spawn specification's program and arguments
do not vary between invocations (only its working directory is computed
per call). -/
theorem C8_fixed_launch_spec (exes : List Path) (cwd : Path) (ops : List Op) :
    (runOps exes (initState cwd) ops).children.all fixedCmd = true ∧
    (∀ root₁ root₂ : Path,
      (pythonSpawnSpec root₁).program = (pythonSpawnSpec root₂).program ∧
      (pythonSpawnSpec root₁).args = (pythonSpawnSpec root₂).args) :=
  ⟨runOps_fixedCmd exes (initState cwd) ops rfl, fun _ _ => ⟨rfl, rfl⟩⟩

/-- Claim C9, confirmed: start_python_server returns unit immediately and
unconditionally, creating no child and recording nothing on the calling
thread; a failure of project-root resolution (like any spawn failure)
panics only the background helper thread — the shell keeps running and
nothing becomes observable to the caller. -/
theorem C9_failures_confined_to_helper (exes : List Path) (s : ShellState) :
    (start_python_server s).2 = () ∧
    (start_python_server s).1.children = s.children ∧
    (start_python_server s).1.taskResults = s.taskResults ∧
    (runLaunchTask exes s).shellRunning = s.shellRunning ∧
    (runLaunchTask exes s).eventLog = s.eventLog ∧
    (resolveProjectRoot s.cwd = none →
      runLaunchTask exes s =
        { s with taskResults :=
            s.taskResults ++ [TaskResult.panicked "Failed to get project root"] }) := by
  refine ⟨rfl, rfl, rfl, runLaunchTask_shellRunning exes s,
    runLaunchTask_eventLog exes s, ?_⟩
  intro h
  unfold runLaunchTask
  rw [h]

/-- Witness for C9 at the concrete state of a shell launched from the
filesystem root. -/
theorem C9_failures_confined_to_helper_witness :
    runLaunchTask [] (initState []) =
      { initState [] with
          taskResults := [TaskResult.panicked "Failed to get project root"] } := by
  have h := (C9_failures_confined_to_helper [] (initState [])).2.2.2.2.2 (by decide)
  simpa using h

/-- Claim C10, confirmed: project-root resolution is not total over
current-directory values.  At the filesystem root (which has no parent)
the helper thread hits the expect-on-None panic branch and spawns nothing,
even when the interpreter exists on disk, while any non-root directory
resolves to some path. -/
theorem C10_resolution_partial_at_root :
    resolveProjectRoot [] = none ∧
    (runLaunchTask [[".venv", "bin", "python"]] (initState [])).taskResults =
      [TaskResult.panicked "Failed to get project root"] ∧
    (runLaunchTask [[".venv", "bin", "python"]] (initState [])).children = [] ∧
    resolveProjectRoot ["home"] = some [] := by
  refine ⟨rfl, by decide, by decide, rfl⟩

end FIDU
